import Mathlib

/-!
Verification of the session segmentation and scoring core of the guide2
activity tracker.  The Python source is embedded shallowly: timestamps are
integer seconds, `datetime` differences are integer second counts, Python
floats are modelled by rationals, fallible code paths (uncaught `TypeError` /
`ZeroDivisionError`) return `Option.none`, and the persistence side effect of
saving a finalized session is modelled by an explicit output list carried in
the state.
-/

namespace Guide2

/-- Floor of a rational, computed from its reduced fraction (kept explicit so
concrete values evaluate inside the kernel). -/
def qfloor (q : ℚ) : ℤ := q.num / q.den

/-- Python's built-in `round` on a rational value: round half to even. -/
def pyRound (q : ℚ) : ℤ :=
  if q - qfloor q < 1/2 then qfloor q
  else if 1/2 < q - qfloor q then qfloor q + 1
  else if qfloor q % 2 = 0 then qfloor q else qfloor q + 1

/-- In-memory activity record from `src/analysis/batch_sessionizer.py`
(`ActivityLogStub`): timestamps in seconds, `duration_sec` a non-negative
integer per the data model, `productivity_score` optional. -/
structure ActivityLogStub where
  id : ℤ
  timestamp_start : ℤ
  duration_sec : ℕ
  productivity_score : Option ℤ
  details : String
  session_id : Option ℤ := none
deriving DecidableEq

/-- Derived `end_time` property: `timestamp_start + duration_sec`. -/
def ActivityLogStub.end_time (a : ActivityLogStub) : ℤ :=
  a.timestamp_start + a.duration_sec

/-- Function `classify_type` from `batch_sessionizer.py`: score ≥ 20 is productive,
≤ -20 unproductive, otherwise (including a missing score) neutral. -/
def classify_type (prod_score : Option ℤ) : String :=
  match prod_score with
  | none => "neutral"
  | some s => if s ≥ 20 then "productive"
              else if s ≤ -20 then "unproductive"
              else "neutral"

/-- Comparison key of `sorted(activities, key=lambda a: a.timestamp_start)`. -/
def startLE (a b : ActivityLogStub) : Prop :=
  a.timestamp_start ≤ b.timestamp_start

instance : DecidableRel startLE :=
  fun a b => inferInstanceAs (Decidable (a.timestamp_start ≤ b.timestamp_start))

/-- Python's stable `sorted` by `timestamp_start` (insertion sort with a
non-strict key comparison is stable, matching CPython's Timsort). -/
def sortActivities (acts : List ActivityLogStub) : List ActivityLogStub :=
  List.insertionSort startLE acts

/-- Default `GAP_THRESHOLD_SEC` from `batch_sessionizer.py`. -/
def GAP_THRESHOLD_SEC : ℤ := 1800

/-- Default `MICRO_BREAK_THRESHOLD_SEC` from `batch_sessionizer.py`. -/
def MICRO_BREAK_THRESHOLD_SEC : ℤ := 300

/-- Main loop of `batch_sessionize`.  The open buffer is carried as
`bhd :: btl` (`bhd` is `buffer[0]`, the buffer is never empty in the source),
`sessions` accumulates the closed groups. -/
def sessionizeLoop (gap_threshold_sec micro_break_threshold_sec : ℤ) :
    List ActivityLogStub → ActivityLogStub → List ActivityLogStub →
    List (List ActivityLogStub) → List (List ActivityLogStub)
  | [], bhd, btl, sessions => sessions ++ [bhd :: btl]
  | curr :: rest, bhd, btl, sessions =>
    let prev := (bhd :: btl).getLast (List.cons_ne_nil bhd btl)
    let gap : ℤ := curr.timestamp_start - prev.end_time
    if gap > gap_threshold_sec then
      sessionizeLoop gap_threshold_sec micro_break_threshold_sec
        rest curr [] (sessions ++ [bhd :: btl])
    else
      let prev_type := classify_type prev.productivity_score
      let curr_type := classify_type curr.productivity_score
      if prev_type ≠ curr_type then
        if (curr.duration_sec : ℤ) ≤ micro_break_threshold_sec ∧
            prev_type = classify_type bhd.productivity_score then
          sessionizeLoop gap_threshold_sec micro_break_threshold_sec
            rest bhd (btl ++ [curr]) sessions
        else if (prev.duration_sec : ℤ) ≤ micro_break_threshold_sec ∧
            curr_type = classify_type bhd.productivity_score then
          sessionizeLoop gap_threshold_sec micro_break_threshold_sec
            rest bhd (btl ++ [curr]) sessions
        else
          sessionizeLoop gap_threshold_sec micro_break_threshold_sec
            rest curr [] (sessions ++ [bhd :: btl])
      else
        sessionizeLoop gap_threshold_sec micro_break_threshold_sec
          rest bhd (btl ++ [curr]) sessions

/-- Function `batch_sessionize` from `src/analysis/batch_sessionizer.py`: sort by
start time, then walk the list splitting on long gaps and real type switches
while absorbing micro blips. -/
def batch_sessionize (activities : List ActivityLogStub)
    (gap_threshold_sec : ℤ := GAP_THRESHOLD_SEC)
    (micro_break_threshold_sec : ℤ := MICRO_BREAK_THRESHOLD_SEC) :
    List (List ActivityLogStub) :=
  match sortActivities activities with
  | [] => []
  | a0 :: rest => sessionizeLoop gap_threshold_sec micro_break_threshold_sec
      rest a0 [] []

/-- Total duration of a group of activities. -/
def totalDur (session : List ActivityLogStub) : ℕ :=
  (session.map (·.duration_sec)).sum

/-- Duration-weighted sum of scores, a missing score counting as 0
(`(a.productivity_score or 0) * a.duration_sec` summed). -/
def weightedSum (session : List ActivityLogStub) : ℤ :=
  (session.map (fun a => a.productivity_score.getD 0 * (a.duration_sec : ℤ))).sum

/-- Function `calculate_weighted_score` from `batch_sessionizer.py`: 0 when the total
duration is zero, otherwise the rounded time-weighted mean score with missing
scores treated as 0. -/
def calculate_weighted_score (session : List ActivityLogStub) : ℤ :=
  if totalDur session = 0 then 0
  else pyRound ((weightedSum session : ℚ) / (totalDur session : ℚ))

/-- Database activity row (`models.ActivityLog`) restricted to the columns
the verified code reads: `id`, `session_id`, `timestamp_start`,
`duration_sec`, `productivity_score`, `details`.  The remaining columns
(`event_type`, `confidence_score`, `classification_text`) are never consulted
by the segmentation or scoring functions. -/
structure ActivityLog where
  id : ℤ
  session_id : Option ℤ
  timestamp_start : ℤ
  duration_sec : ℕ
  productivity_score : Option ℤ
  details : String
deriving DecidableEq

/-- Derived activity end time, `timestamp_start + duration_sec`. -/
def ActivityLog.end_time (a : ActivityLog) : ℤ :=
  a.timestamp_start + a.duration_sec

/-- Total duration of a list of database activities. -/
def totalDurLog (acts : List ActivityLog) : ℕ :=
  (acts.map (·.duration_sec)).sum

/-- Expression `sum(a.productivity_score * a.duration_sec for a in acts)` as written in
`SessionState._end_session` and in `session_operations.calculate_session_score`:
the product of a missing (`None`) score raises `TypeError`, modelled by
`none`. -/
def sumScoreTimesDur : List ActivityLog → Option ℤ
  | [] => some 0
  | a :: t =>
    match a.productivity_score, sumScoreTimesDur t with
    | some s, some rest => some (s * (a.duration_sec : ℤ) + rest)
    | _, _ => none

/-- Payload handed to `save_activity_session` when a session is persisted. -/
structure SavedSession where
  session_name : String
  productivity_score : ℤ
  start_time : ℤ
  end_time : ℤ
  total_duration_sec : ℕ
  user_confirmed : Bool
deriving DecidableEq

namespace SessionState

/-- Constant `SessionState.HARD_BREAK_MIN`. -/
def HARD_BREAK_MIN : ℕ := 10

/-- Constant `SessionState.HARD_WORK_MIN`. -/
def HARD_WORK_MIN : ℕ := 15

/-- Constant `SessionState.EMA_ALPHA`. -/
def EMA_ALPHA : ℚ := 3/10

/-- Constant `SessionState.BUFFER_SIZE`. -/
def BUFFER_SIZE : ℕ := 240

/-- The `current_session` dict: member activities plus the start time. -/
structure CurrentSession where
  activities : List ActivityLog
  start_time : ℤ
deriving DecidableEq

/-- The `prev_session_meta` dict snapshotted for the commentary collaborator. -/
structure PrevMeta where
  dominant_type : Option String
  start_time : ℤ
  duration : ℕ
  session_type : Option String
deriving DecidableEq

/-- Mutable state of `SessionState` (`src/analysis/session_state.py`).
`saved` records the sessions handed to `save_activity_session`, modelling the
database side effect of `_end_session`. -/
structure State where
  current_session : Option CurrentSession
  current_context : Option String
  context_start_time : Option ℤ
  ema_score : Option ℚ
  break_counter : ℕ
  work_counter : ℕ
  score_buffer : List ℚ
  prev_session_meta : Option PrevMeta
  prev_activities : List ActivityLog
  saved : List SavedSession
deriving DecidableEq

/-- The state built by `SessionState.__init__`. -/
def initState : State :=
  { current_session := none, current_context := none,
    context_start_time := none, ema_score := none,
    break_counter := 0, work_counter := 0, score_buffer := [],
    prev_session_meta := none, prev_activities := [], saved := [] }

/-- Method `_update_ema`: first sample initializes the EMA, later samples blend with
factor `EMA_ALPHA`. -/
def updateEma (ema : Option ℚ) (score : ℚ) : ℚ :=
  match ema with
  | none => score
  | some e => EMA_ALPHA * score + (1 - EMA_ALPHA) * e

/-- Method `_update_buffer`: append to the `deque(maxlen=BUFFER_SIZE)`, evicting the
oldest sample on overflow. -/
def updateBuffer (buf : List ℚ) (score : ℚ) : List ℚ :=
  let b := buf ++ [score]
  if BUFFER_SIZE < b.length then b.tail else b

/-- Method `_compute_dynamic_thresholds`: static fallback `(20, 0)` under 10 samples,
otherwise the 75th/25th percentile of the sorted buffer, indexed at
`int(0.75*(n-1))` and `int(0.25*(n-1))` (exact in binary floating point, hence
the natural-number divisions).  The indices are below `n`, so the `getD`
defaults are never reached. -/
def computeDynamicThresholds (buf : List ℚ) : ℚ × ℚ :=
  if buf.length < 10 then (20, 0)
  else
    let sorted_buf := List.insertionSort (· ≤ ·) buf
    (sorted_buf.getD (3 * (buf.length - 1) / 4) 0,
     sorted_buf.getD ((buf.length - 1) / 4) 0)

/-- Score of `_end_session`:
`round(sum(a.productivity_score * a.duration_sec) / total_dur)`.
There is no `or 0` here and no guard: a member without a score raises
`TypeError` and an empty/zero-duration member list raises
`ZeroDivisionError`; both failures are modelled by `none`. -/
def endSessionScore (acts : List ActivityLog) : Option ℤ :=
  match sumScoreTimesDur acts with
  | none => none
  | some w =>
    let total := totalDurLog acts
    if total = 0 then none
    else some (pyRound ((w : ℚ) / (total : ℚ)))

/-- Method `_end_session`: persist the finished session and reset every ephemeral
field.  `none` models the uncaught exceptions of the score computation (and
the `TypeError` of reading `current_session["activities"]` when no session is
open, which the call site prevents). -/
def endSession (st : State) (end_time : ℤ) : Option State :=
  match st.current_session with
  | none => none
  | some cs =>
    match endSessionScore cs.activities with
    | none => none
    | some score =>
      some { st with
        saved := st.saved ++
          [{ session_name := "(AI will name later)",
             productivity_score := score,
             start_time := cs.start_time, end_time := end_time,
             total_duration_sec := totalDurLog cs.activities,
             user_confirmed := false }],
        current_session := none, current_context := none,
        context_start_time := none, break_counter := 0, work_counter := 0,
        ema_score := none, score_buffer := [] }

/-- Method `_start_session`: stash the previous session's meta for commentary, then
open a fresh session seeded with the triggering activity. -/
def startSession (st : State) (activity : ActivityLog) (start_time : ℤ) :
    State :=
  let stash : Option PrevMeta × List ActivityLog :=
    match st.current_session with
    | some cs =>
      (some { dominant_type := st.current_context,
              start_time := cs.start_time,
              duration := totalDurLog cs.activities,
              session_type := st.current_context }, cs.activities)
    | none => (none, [])
  { st with
    prev_session_meta := stash.1, prev_activities := stash.2,
    current_session := some { activities := [activity],
                              start_time := start_time },
    current_context := some "productive",
    context_start_time := some start_time }

/-- Steps 1-3 of `process_minute`: update EMA and rolling buffer, recompute
the dynamic thresholds, and advance the hysteresis counters (`score or 0`
treats a missing score as 0, the neutral dead band decays both counters,
never below 0). -/
def smoothedState (st : State) (score : Option ℚ) : State :=
  let raw_score : ℚ := score.getD 0
  let ema := updateEma st.ema_score raw_score
  let buf := updateBuffer st.score_buffer raw_score
  let thresholds := computeDynamicThresholds buf
  let counters : ℕ × ℕ :=
    if ema < thresholds.2 then (st.break_counter + 1, 0)
    else if thresholds.1 < ema then (0, st.work_counter + 1)
    else (st.break_counter - 1, st.work_counter - 1)
  { st with
    ema_score := some ema, score_buffer := buf,
    break_counter := counters.1, work_counter := counters.2 }

lemma smoothedState_current_session (st : State) (score : Option ℚ) :
    (smoothedState st score).current_session = st.current_session := rfl

lemma smoothedState_saved (st : State) (score : Option ℚ) :
    (smoothedState st score).saved = st.saved := rfl

/-- Method `process_minute`: smooth (steps 1-3), then commit a boundary when a hard
threshold is reached (step 4).  `now` is `activity.timestamp_start` as in the
source. -/
def processMinute (st : State) (activity : ActivityLog) (score : Option ℚ) :
    Option State :=
  let now := activity.timestamp_start
  let st1 := smoothedState st score
  match st1.current_session with
  | some _ =>
    if HARD_BREAK_MIN ≤ st1.break_counter then endSession st1 now
    else some st1
  | none =>
    if HARD_WORK_MIN ≤ st1.work_counter then
      some (startSession st1 activity now)
    else some st1

/-- Method `add_activity`: append the new arrival to the open session (if any), then
run the per-minute update with the activity's own productivity score. -/
def addActivity (st : State) (activity : ActivityLog) : Option State :=
  let st' :=
    match st.current_session with
    | some cs =>
      { st with
        current_session :=
          some { cs with activities := cs.activities ++ [activity] } }
    | none => st
  processMinute st' activity (activity.productivity_score.map (fun z => (z : ℚ)))

/-- Feed a list of activities to the machine in order, stopping at the first
uncaught exception. -/
def runFeed (acts : List ActivityLog) : Option State :=
  acts.foldlM addActivity initState

end SessionState

namespace RealTimeSessionGrouper

/-- Settings `REALTIME_SESSION_SETTINGS` as read by `RealTimeSessionGrouper.__init__`
(`config/settings.py`). -/
structure Config where
  minimum_focus_time : ℤ
  minimum_break_time : ℤ
  context_switch_threshold : ℤ
  noise_threshold : ℤ
  session_timeout : ℤ
deriving DecidableEq

/-- The values of `REALTIME_SESSION_SETTINGS` in `config/settings.py`. -/
def REALTIME_SESSION_SETTINGS : Config :=
  { minimum_focus_time := 180, minimum_break_time := 120,
    context_switch_threshold := 300, noise_threshold := 60,
    session_timeout := 300 }

/-- The grouper's `current_session` dict. -/
structure RTSession where
  activities : List ActivityLog
  start_time : ℤ
  dominant_type : String
deriving DecidableEq

/-- Mutable state of `RealTimeSessionGrouper`
(`src/analysis/realtime_session_grouper.py`).  `saved` records the payloads
handed to `save_activity_session`, minus the generated session name: naming
is string presentation the verified properties never consult. -/
structure State where
  current_session : Option RTSession
  current_context : Option String
  context_start_time : Option ℤ
  pending_activities : List ActivityLog
  saved : List SavedSession
deriving DecidableEq

/-- The state built by `RealTimeSessionGrouper.__init__`. -/
def initState : State :=
  { current_session := none, current_context := none,
    context_start_time := none, pending_activities := [], saved := [] }

/-- Method `calculate_session_score`: time-weighted mean productivity score, an
unclassified member contributing the neutral value 0, with both the empty
list and a zero total duration returning 0. -/
def calculate_session_score (activities : List ActivityLog) : ℤ :=
  if activities = [] then 0
  else
    let total_weighted_score : ℤ :=
      (activities.map
        (fun a => a.productivity_score.getD 0 * (a.duration_sec : ℤ))).sum
    let total_duration := totalDurLog activities
    if total_duration = 0 then 0
    else pyRound ((total_weighted_score : ℚ) / (total_duration : ℚ))

/-- Method `should_create_session`: cut over on a productive→unproductive switch
after the minimum focus dwell, on an unproductive→productive switch after the
minimum break dwell, or on any switch after the context-switch threshold. -/
def should_create_session (cfg : Config) (current_context : String)
    (time_in_context : ℤ) (new_activity_type : String) : Bool :=
  if current_context = "productive" ∧
      cfg.minimum_focus_time ≤ time_in_context ∧
      new_activity_type = "unproductive" then true
  else if current_context = "unproductive" ∧
      cfg.minimum_break_time ≤ time_in_context ∧
      new_activity_type = "productive" then true
  else cfg.context_switch_threshold ≤ time_in_context

/-- Method `finalize_current_session`: persist the open session (score, start/end
times, total duration) and clear it.  A session is only ever opened with at
least one member, so the `getLast?` default branch is unreachable. -/
def finalizeCurrentSession (st : State) : State :=
  match st.current_session with
  | none => st
  | some s =>
    match s.activities.getLast? with
    | none => st
    | some last =>
      { st with
        saved := st.saved ++
          [{ session_name := "", productivity_score :=
               calculate_session_score s.activities,
             start_time := s.start_time,
             end_time := last.timestamp_start + last.duration_sec,
             total_duration_sec := totalDurLog s.activities,
             user_confirmed := false }],
        current_session := none, current_context := none,
        context_start_time := none }

/-- Method `start_new_session`: open a session seeded with the triggering activity,
then fold in the pending activities whose classification matches the new
context and drop them from the pending queue.  `classify` is the external
classification oracle (`FlowAwareAnalyzer.classify_activity_type`, which may
consult an LLM). -/
def startNewSession (classify : ActivityLog → String) (st : State)
    (activity : ActivityLog) (activity_type : String) : State :=
  let matching_pending :=
    st.pending_activities.filter (fun a => classify a = activity_type)
  { st with
    current_session := some
      { activities := [activity] ++ matching_pending,
        start_time := activity.timestamp_start,
        dominant_type := activity_type },
    current_context := some activity_type,
    context_start_time := some activity.timestamp_start,
    pending_activities :=
      st.pending_activities.filter (fun a => ¬ classify a = activity_type) }

/-- Method `check_session_timeout`: force-close the open session when the wall
clock (`now`, `datetime.now()` in the source) is more than the timeout past
the last member's end time. -/
def checkSessionTimeout (cfg : Config) (now : ℤ) (st : State) : State :=
  match st.current_session with
  | none => st
  | some s =>
    match s.activities.getLast? with
    | none => st
    | some last =>
      if cfg.session_timeout <
          now - (last.timestamp_start + (last.duration_sec : ℤ)) then
        finalizeCurrentSession st
      else st

/-- Method `on_new_activity`: drop noise before any state update, otherwise
classify, open/extend/split the session per the context-switch policy, and
finally run the inactivity timeout check. -/
def onNewActivity (cfg : Config) (classify : ActivityLog → String)
    (now : ℤ) (st : State) (activity : ActivityLog) : State :=
  if (activity.duration_sec : ℤ) < cfg.noise_threshold then st
  else
    let activity_type := classify activity
    let st1 :=
      match st.current_context with
      | none => startNewSession classify st activity activity_type
      | some ctx =>
        if activity_type ≠ ctx then
          let time_in_current_context : ℤ :=
            activity.timestamp_start - (st.context_start_time.getD 0)
          if should_create_session cfg ctx time_in_current_context
              activity_type then
            startNewSession classify (finalizeCurrentSession st)
              activity activity_type
          else
            { st with
              pending_activities := st.pending_activities ++ [activity] }
        else
          match st.current_session with
          | some s =>
            { st with
              current_session := some
                { s with activities := s.activities ++ [activity] } }
          | none => st
    checkSessionTimeout cfg now st1

end RealTimeSessionGrouper

namespace SessionOperations

/-- Function `calculate_session_score` nested in `save_session`
(`src/database/session_operations.py`).  Its empty-list and zero-duration
guards are commented out in the source, so it multiplies possibly-`None`
scores (`TypeError`) and divides by the possibly-zero total duration
(`ZeroDivisionError`); both failures are modelled by `none`. -/
def calculate_session_score (activities : List ActivityLog) : Option ℤ :=
  match sumScoreTimesDur activities with
  | none => none
  | some total_weighted_score =>
    let total_duration := totalDurLog activities
    if total_duration = 0 then none
    else some (pyRound ((total_weighted_score : ℚ) / (total_duration : ℚ)))

/-- A persisted `ActivitySession` row, restricted to the columns the
gap-range finder reads. -/
structure SessionRow where
  id : ℤ
  start_time : ℤ
  end_time : ℤ
deriving DecidableEq

/-- The activity and session tables an incremental batch run queries. -/
structure Store where
  activities : List ActivityLog
  sessions : List SessionRow
deriving DecidableEq

/-- Comparison key of the `ORDER BY timestamp_start` database sort. -/
def logStartLE (a b : ActivityLog) : Prop :=
  a.timestamp_start ≤ b.timestamp_start

instance : DecidableRel logStartLE :=
  fun a b => inferInstanceAs (Decidable (a.timestamp_start ≤ b.timestamp_start))

/-- Function `calculate_processing_bounds`: widen a gap of unsessionized activities to
the nearest finalized session edge within one day on either side, falling
back to a fixed two-hour buffer. -/
def calculate_processing_bounds (sessions : List SessionRow)
    (gap_start gap_end : ℤ) : ℤ × ℤ :=
  let one_day : ℤ := 86400
  let fallback_buffer : ℤ := 7200
  let starts_before :=
    (sessions.filter (fun s =>
      s.end_time ≤ gap_start ∧ gap_start - one_day ≤ s.end_time)).map
      (·.end_time)
  let process_start :=
    match starts_before.max? with
    | some t => t
    | none => gap_start - fallback_buffer
  let ends_after :=
    (sessions.filter (fun s =>
      gap_end ≤ s.start_time ∧ s.start_time ≤ gap_end + one_day)).map
      (·.start_time)
  let process_end :=
    match ends_after.min? with
    | some t => t
    | none => gap_end + fallback_buffer
  (process_start, process_end)

/-- Loop of `find_smart_sessionization_ranges` over `unsessionized[1:]`:
split into processing ranges wherever consecutive unsessionized activities
are more than 30 minutes apart.  `prev` is the previous activity (its start
time is the loop's `prev_timestamp`, its end the closed gap's end). -/
def rangesLoop (sessions : List SessionRow) :
    List ActivityLog → ActivityLog → ℤ → List (ℤ × ℤ) → List (ℤ × ℤ)
  | [], prev, current_gap_start, acc =>
    acc ++ [calculate_processing_bounds sessions current_gap_start
      (prev.timestamp_start + prev.duration_sec)]
  | activity :: rest, prev, current_gap_start, acc =>
    let time_gap : ℤ := activity.timestamp_start - prev.timestamp_start
    if 1800 < time_gap then
      rangesLoop sessions rest activity activity.timestamp_start
        (acc ++ [calculate_processing_bounds sessions current_gap_start
          (prev.timestamp_start + prev.duration_sec)])
    else
      rangesLoop sessions rest activity current_gap_start acc

/-- Function `find_smart_sessionization_ranges`: query the positive-duration
activities with no `session_id` in time order, group them on >30-minute
gaps, and widen each group with `calculate_processing_bounds`.  Returns `[]`
when nothing is unsessionized. -/
def find_smart_sessionization_ranges (store : Store) : List (ℤ × ℤ) :=
  let unsessionized :=
    List.insertionSort logStartLE
      (store.activities.filter
        (fun a => a.session_id = none ∧ 0 < a.duration_sec))
  match unsessionized with
  | [] => []
  | a0 :: rest => rangesLoop store.sessions rest a0 a0.timestamp_start []

end SessionOperations

/-! Helper lemmas. -/

lemma qfloor_eq (q : ℚ) : qfloor q = ⌊q⌋ := by
  rw [qfloor, Rat.floor_def]

lemma floor_le_pyRound (q : ℚ) : ⌊q⌋ ≤ pyRound q := by
  simp only [pyRound, qfloor_eq]
  split_ifs <;> omega

lemma pyRound_le_ceil (q : ℚ) : pyRound q ≤ ⌈q⌉ := by
  have hfc : ⌊q⌋ ≤ ⌈q⌉ := Int.floor_le_ceil q
  have key : ¬ (q - ⌊q⌋ < 1/2) → ⌊q⌋ + 1 ≤ ⌈q⌉ := by
    intro h
    have h0 : (⌊q⌋ : ℚ) < q := by
      have : (1:ℚ)/2 ≤ q - ⌊q⌋ := le_of_not_lt h
      linarith
    exact Int.add_one_le_iff.mpr (Int.lt_ceil.mpr h0)
  simp only [pyRound, qfloor_eq]
  split_ifs with h1 h2 h3
  · exact hfc
  · exact key h1
  · exact hfc
  · exact key h1

lemma le_pyRound_of_le {z : ℤ} {q : ℚ} (h : (z : ℚ) ≤ q) : z ≤ pyRound q :=
  le_trans (Int.le_floor.mpr h) (floor_le_pyRound q)

lemma pyRound_le_of_le {z : ℤ} {q : ℚ} (h : q ≤ (z : ℚ)) : pyRound q ≤ z :=
  le_trans (pyRound_le_ceil q) (Int.ceil_le.mpr h)

lemma pyRound_zero : pyRound 0 = 0 := by norm_num [pyRound, qfloor]

lemma sessionizeLoop_flatten (g m : ℤ) :
    ∀ (rest : List ActivityLogStub) (bhd : ActivityLogStub)
      (btl : List ActivityLogStub) (ss : List (List ActivityLogStub)),
      (sessionizeLoop g m rest bhd btl ss).flatten =
        ss.flatten ++ (bhd :: btl) ++ rest := by
  intro rest
  induction rest with
  | nil =>
    intro bhd btl ss
    simp [sessionizeLoop]
  | cons curr rest ih =>
    intro bhd btl ss
    simp only [sessionizeLoop]
    split_ifs <;> simp [ih]

lemma sessionizeLoop_ne_nil (g m : ℤ) :
    ∀ (rest : List ActivityLogStub) (bhd : ActivityLogStub)
      (btl : List ActivityLogStub) (ss : List (List ActivityLogStub)),
      (∀ s ∈ ss, s ≠ []) →
      ∀ s ∈ sessionizeLoop g m rest bhd btl ss, s ≠ [] := by
  intro rest
  induction rest with
  | nil =>
    intro bhd btl ss hss s hs
    rcases List.mem_append.mp hs with h | h
    · exact hss s h
    · simp only [List.mem_singleton] at h
      subst h; exact List.cons_ne_nil _ _
  | cons curr rest ih =>
    intro bhd btl ss hss s hs
    simp only [sessionizeLoop] at hs
    have hclose : ∀ t ∈ ss ++ [bhd :: btl], t ≠ [] := by
      intro t ht
      rcases List.mem_append.mp ht with h | h
      · exact hss t h
      · simp only [List.mem_singleton] at h
        subst h; exact List.cons_ne_nil _ _
    split_ifs at hs <;>
      first
        | exact ih curr [] _ hclose s hs
        | exact ih bhd (btl ++ [curr]) _ hss s hs

lemma batch_sessionize_flatten (activities : List ActivityLogStub)
    (g m : ℤ) :
    (batch_sessionize activities g m).flatten = sortActivities activities := by
  unfold batch_sessionize
  cases h : sortActivities activities with
  | nil => simp
  | cons a0 rest => simp [sessionizeLoop_flatten]

/-- Temporal separation: `a` ends no later than `b` starts. -/
def sep (a b : ActivityLogStub) : Prop :=
  a.end_time ≤ b.timestamp_start

instance : DecidableRel sep :=
  fun a b => inferInstanceAs (Decidable (a.end_time ≤ b.timestamp_start))

instance : IsTrans ActivityLogStub sep where
  trans a b c hab hbc := by
    have hb : b.timestamp_start ≤ b.end_time := by
      unfold ActivityLogStub.end_time
      have : (0 : ℤ) ≤ (b.duration_sec : ℤ) := Int.ofNat_nonneg _
      omega
    exact le_trans hab (le_trans hb hbc)

/-- C1 counterexample: `batch_sessionize` does not return pairwise
non-overlapping groups on every input.  With `A` spanning `[0, 10000)` and
`B` spanning `[1, 401)` (a type switch with no positive gap and both
activities longer than the micro-break threshold), the result is
`[[A], [B]]`, and the two groups' time spans overlap: each group starts
strictly before the other ends. -/
theorem batch_sessionize_overlap_counterexample :
    batch_sessionize
      [⟨1, 0, 10000, some 30, "a", none⟩, ⟨2, 1, 400, some (-30), "b", none⟩]
      1800 300 =
      [[⟨1, 0, 10000, some 30, "a", none⟩],
       [⟨2, 1, 400, some (-30), "b", none⟩]] ∧
    (⟨2, 1, 400, some (-30), "b", none⟩ : ActivityLogStub).timestamp_start <
      (⟨1, 0, 10000, some 30, "a", none⟩ : ActivityLogStub).end_time ∧
    (⟨1, 0, 10000, some 30, "a", none⟩ : ActivityLogStub).timestamp_start <
      (⟨2, 1, 400, some (-30), "b", none⟩ : ActivityLogStub).end_time := by
  decide

/-- C1 (amended): `batch_sessionize` is a partition of its input — every
group is non-empty and the concatenation of the groups is a permutation of
the input list (multiset equality) — and, provided the input activities are
themselves sequentially non-overlapping (sorted by start time, each ends no
later than the next starts), the groups in returned order are chronologically
ordered and pairwise non-overlapping in time (every member of an earlier
group ends no later than any member of a later group starts). -/
theorem batch_sessionize_partition (activities : List ActivityLogStub)
    (g m : ℤ) :
    (∀ s ∈ batch_sessionize activities g m, s ≠ []) ∧
    (batch_sessionize activities g m).flatten.Perm activities ∧
    ((sortActivities activities).Chain' sep →
      (batch_sessionize activities g m).Pairwise
        (fun s t => ∀ a ∈ s, ∀ b ∈ t, sep a b)) := by
  refine ⟨?_, ?_, ?_⟩
  · unfold batch_sessionize
    cases h : sortActivities activities with
    | nil => simp
    | cons a0 rest =>
      exact sessionizeLoop_ne_nil g m rest a0 [] [] (by simp)
  · rw [batch_sessionize_flatten]
    exact List.perm_insertionSort startLE activities
  · intro hsep
    have hp : (batch_sessionize activities g m).flatten.Pairwise sep := by
      rw [batch_sessionize_flatten]
      exact List.chain'_iff_pairwise.mp hsep
    exact (List.pairwise_flatten.mp hp).2

/-- C1 witness: the partition theorem applied to a concrete pair of
sequential activities. -/
theorem batch_sessionize_partition_witness :
    (sortActivities
      [⟨1, 0, 600, some 30, "a", none⟩,
       ⟨2, 3600, 600, some (-30), "b", none⟩]).Chain' sep ∧
    ((∀ s ∈ batch_sessionize
        [⟨1, 0, 600, some 30, "a", none⟩,
         ⟨2, 3600, 600, some (-30), "b", none⟩] 1800 300, s ≠ []) ∧
     (batch_sessionize
        [⟨1, 0, 600, some 30, "a", none⟩,
         ⟨2, 3600, 600, some (-30), "b", none⟩] 1800 300).flatten.Perm
       [⟨1, 0, 600, some 30, "a", none⟩,
        ⟨2, 3600, 600, some (-30), "b", none⟩] ∧
     (batch_sessionize
        [⟨1, 0, 600, some 30, "a", none⟩,
         ⟨2, 3600, 600, some (-30), "b", none⟩] 1800 300).Pairwise
       (fun s t => ∀ a ∈ s, ∀ b ∈ t, sep a b)) :=
  by
  have hchain : (sortActivities
      [⟨1, 0, 600, some 30, "a", none⟩,
       ⟨2, 3600, 600, some (-30), "b", none⟩]).Chain' sep := by
    have hs : sortActivities
        [⟨1, 0, 600, some 30, "a", none⟩,
         ⟨2, 3600, 600, some (-30), "b", none⟩] =
        [⟨1, 0, 600, some 30, "a", none⟩,
         ⟨2, 3600, 600, some (-30), "b", none⟩] := by decide
    rw [hs]
    exact List.chain'_cons.mpr ⟨by decide, List.chain'_singleton _⟩
  have hmain := batch_sessionize_partition
    [⟨1, 0, 600, some 30, "a", none⟩, ⟨2, 3600, 600, some (-30), "b", none⟩]
    1800 300
  exact ⟨hchain, hmain.1, hmain.2.1, hmain.2.2 hchain⟩

/-- C6: in `batch_sessionize`, whenever the gap between the next activity's
start time and the buffered previous activity's end time exceeds
`gap_threshold_sec`, the buffer is closed as a session and a new buffer
starts with that activity, regardless of either activity's type; in
particular activities `A@0s dur=600 productive` and `B@3600s dur=600
unproductive` with `gap_threshold_sec = 1800` yield exactly the two sessions
`[[A], [B]]`. -/
theorem gap_split :
    (∀ (g m : ℤ) (curr : ActivityLogStub) (rest : List ActivityLogStub)
       (bhd : ActivityLogStub) (btl : List ActivityLogStub)
       (ss : List (List ActivityLogStub)),
       g < curr.timestamp_start -
         ((bhd :: btl).getLast (List.cons_ne_nil bhd btl)).end_time →
       sessionizeLoop g m (curr :: rest) bhd btl ss =
         sessionizeLoop g m rest curr [] (ss ++ [bhd :: btl])) ∧
    batch_sessionize
      [⟨1, 0, 600, some 30, "a", none⟩, ⟨2, 3600, 600, some (-30), "b", none⟩]
      1800 300 =
      [[⟨1, 0, 600, some 30, "a", none⟩],
       [⟨2, 3600, 600, some (-30), "b", none⟩]] := by
  constructor
  · intro g m curr rest bhd btl ss h
    simp only [sessionizeLoop]
    rw [if_pos h]
  · decide

/-- C6 witness: the gap rule applied to the concrete scenario, the gap of
`3600 - 600 = 3000` seconds exceeding the threshold 1800. -/
theorem gap_split_witness :
    (1800 : ℤ) < 3600 - 600 ∧
    sessionizeLoop 1800 300 [⟨2, 3600, 600, some (-30), "b", none⟩]
      ⟨1, 0, 600, some 30, "a", none⟩ [] [] =
    sessionizeLoop 1800 300 [] ⟨2, 3600, 600, some (-30), "b", none⟩ []
      [[⟨1, 0, 600, some 30, "a", none⟩]] :=
  ⟨by decide,
   gap_split.1 1800 300 ⟨2, 3600, 600, some (-30), "b", none⟩ []
     ⟨1, 0, 600, some 30, "a", none⟩ [] [] (by decide)⟩

/-- C7: a type-differing activity that is short
(`duration_sec ≤ micro_break_threshold_sec`) is absorbed into the current
buffer without splitting when the preceding activity's type matches the
buffer's original (first activity's) type; symmetrically, when the preceding
activity was short and the current activity's type matches the buffer's
original type, the current activity is also absorbed.  In particular
`A@0 dur=1200 productive`, `B@1200 dur=120 unproductive`,
`C@1320 dur=1200 productive` with `micro_break_threshold_sec = 300` form a
single session containing all three activities. -/
theorem micro_blip_absorption :
    (∀ (g m : ℤ) (curr : ActivityLogStub) (rest : List ActivityLogStub)
       (bhd : ActivityLogStub) (btl : List ActivityLogStub)
       (ss : List (List ActivityLogStub)),
       curr.timestamp_start -
         ((bhd :: btl).getLast (List.cons_ne_nil bhd btl)).end_time ≤ g →
       classify_type
           ((bhd :: btl).getLast
             (List.cons_ne_nil bhd btl)).productivity_score ≠
         classify_type curr.productivity_score →
       (curr.duration_sec : ℤ) ≤ m →
       classify_type
           ((bhd :: btl).getLast
             (List.cons_ne_nil bhd btl)).productivity_score =
         classify_type bhd.productivity_score →
       sessionizeLoop g m (curr :: rest) bhd btl ss =
         sessionizeLoop g m rest bhd (btl ++ [curr]) ss) ∧
    (∀ (g m : ℤ) (curr : ActivityLogStub) (rest : List ActivityLogStub)
       (bhd : ActivityLogStub) (btl : List ActivityLogStub)
       (ss : List (List ActivityLogStub)),
       curr.timestamp_start -
         ((bhd :: btl).getLast (List.cons_ne_nil bhd btl)).end_time ≤ g →
       classify_type
           ((bhd :: btl).getLast
             (List.cons_ne_nil bhd btl)).productivity_score ≠
         classify_type curr.productivity_score →
       (((bhd :: btl).getLast
           (List.cons_ne_nil bhd btl)).duration_sec : ℤ) ≤ m →
       classify_type curr.productivity_score =
         classify_type bhd.productivity_score →
       sessionizeLoop g m (curr :: rest) bhd btl ss =
         sessionizeLoop g m rest bhd (btl ++ [curr]) ss) ∧
    batch_sessionize
      [⟨1, 0, 1200, some 30, "a", none⟩, ⟨2, 1200, 120, some (-30), "b", none⟩,
       ⟨3, 1320, 1200, some 30, "c", none⟩] 1800 300 =
      [[⟨1, 0, 1200, some 30, "a", none⟩,
        ⟨2, 1200, 120, some (-30), "b", none⟩,
        ⟨3, 1320, 1200, some 30, "c", none⟩]] := by
  refine ⟨?_, ?_, by decide⟩
  · intro g m curr rest bhd btl ss hgap hne hdur htyp
    simp only [sessionizeLoop]
    rw [if_neg (not_lt.mpr hgap), if_pos hne, if_pos ⟨hdur, htyp⟩]
  · intro g m curr rest bhd btl ss hgap hne hdur htyp
    simp only [sessionizeLoop]
    rw [if_neg (not_lt.mpr hgap), if_pos hne]
    by_cases hc : (curr.duration_sec : ℤ) ≤ m ∧
        classify_type
            ((bhd :: btl).getLast
              (List.cons_ne_nil bhd btl)).productivity_score =
          classify_type bhd.productivity_score
    · rw [if_pos hc]
    · rw [if_neg hc, if_pos ⟨hdur, htyp⟩]

/-- C7 witness: the first absorption rule applied to the concrete blip `B`
following `A`, with `C` still pending. -/
theorem micro_blip_absorption_witness :
    ((120 : ℤ) ≤ 300 ∧ classify_type (some (-30)) ≠ classify_type (some 30)) ∧
    sessionizeLoop 1800 300
      [⟨2, 1200, 120, some (-30), "b", none⟩,
       ⟨3, 1320, 1200, some 30, "c", none⟩]
      ⟨1, 0, 1200, some 30, "a", none⟩ [] [] =
    sessionizeLoop 1800 300 [⟨3, 1320, 1200, some 30, "c", none⟩]
      ⟨1, 0, 1200, some 30, "a", none⟩
      [⟨2, 1200, 120, some (-30), "b", none⟩] [] :=
  ⟨⟨by decide, by decide⟩,
   micro_blip_absorption.1 1800 300 ⟨2, 1200, 120, some (-30), "b", none⟩
     [⟨3, 1320, 1200, some 30, "c", none⟩] ⟨1, 0, 1200, some 30, "a", none⟩
     [] [] (by decide) (by decide) (by decide) (by decide)⟩

/-- Duration-weighted sum of scores of database activities, a missing score
counting as 0. -/
def weightedSumLog (acts : List ActivityLog) : ℤ :=
  (acts.map (fun a => a.productivity_score.getD 0 * (a.duration_sec : ℤ))).sum

/-- A list of activities with every missing score replaced by an explicit
score of 0. -/
def fillZeroStub (s : List ActivityLogStub) : List ActivityLogStub :=
  s.map (fun a =>
    { a with productivity_score := some (a.productivity_score.getD 0) })

/-- A list of database activities with every missing score replaced by an
explicit score of 0. -/
def fillZeroLog (acts : List ActivityLog) : List ActivityLog :=
  acts.map (fun a =>
    { a with productivity_score := some (a.productivity_score.getD 0) })

lemma sumScoreTimesDur_none {acts : List ActivityLog}
    (h : ∃ a ∈ acts, a.productivity_score = none) :
    sumScoreTimesDur acts = none := by
  induction acts with
  | nil => rcases h with ⟨a, ha, _⟩; cases ha
  | cons a t ih =>
    rcases h with ⟨b, hb, hbn⟩
    rcases List.mem_cons.mp hb with rfl | hbt
    · simp [sumScoreTimesDur, hbn]
    · cases hsc : a.productivity_score with
      | none => simp [sumScoreTimesDur, hsc]
      | some v => simp [sumScoreTimesDur, hsc, ih ⟨b, hbt, hbn⟩]

lemma rt_score_eq (acts : List ActivityLog) :
    RealTimeSessionGrouper.calculate_session_score acts =
      if totalDurLog acts = 0 then 0
      else pyRound ((weightedSumLog acts : ℚ) / (totalDurLog acts : ℚ)) := by
  unfold RealTimeSessionGrouper.calculate_session_score weightedSumLog
  cases acts with
  | nil => simp [totalDurLog]
  | cons a t => simp

lemma le_weightedSum (s : List ActivityLogStub) (lo : ℤ)
    (h : ∀ a ∈ s, lo ≤ a.productivity_score.getD 0) :
    lo * (totalDur s : ℤ) ≤ weightedSum s := by
  induction s with
  | nil => simp [weightedSum, totalDur]
  | cons a t ih =>
    have h1 : lo * (a.duration_sec : ℤ) ≤
        a.productivity_score.getD 0 * (a.duration_sec : ℤ) :=
      mul_le_mul_of_nonneg_right (h a (List.mem_cons_self a t))
        (Int.ofNat_nonneg _)
    have h2 := ih (fun b hb => h b (List.mem_cons_of_mem a hb))
    simp only [weightedSum, totalDur, List.map_cons, List.sum_cons] at *
    push_cast
    push_cast at h2
    linarith

lemma weightedSum_le (s : List ActivityLogStub) (hi : ℤ)
    (h : ∀ a ∈ s, a.productivity_score.getD 0 ≤ hi) :
    weightedSum s ≤ hi * (totalDur s : ℤ) := by
  induction s with
  | nil => simp [weightedSum, totalDur]
  | cons a t ih =>
    have h1 : a.productivity_score.getD 0 * (a.duration_sec : ℤ) ≤
        hi * (a.duration_sec : ℤ) :=
      mul_le_mul_of_nonneg_right (h a (List.mem_cons_self a t))
        (Int.ofNat_nonneg _)
    have h2 := ih (fun b hb => h b (List.mem_cons_of_mem a hb))
    simp only [weightedSum, totalDur, List.map_cons, List.sum_cons] at *
    push_cast
    push_cast at h2
    linarith

lemma le_weightedSumLog (acts : List ActivityLog) (lo : ℤ)
    (h : ∀ a ∈ acts, lo ≤ a.productivity_score.getD 0) :
    lo * (totalDurLog acts : ℤ) ≤ weightedSumLog acts := by
  induction acts with
  | nil => simp [weightedSumLog, totalDurLog]
  | cons a t ih =>
    have h1 : lo * (a.duration_sec : ℤ) ≤
        a.productivity_score.getD 0 * (a.duration_sec : ℤ) :=
      mul_le_mul_of_nonneg_right (h a (List.mem_cons_self a t))
        (Int.ofNat_nonneg _)
    have h2 := ih (fun b hb => h b (List.mem_cons_of_mem a hb))
    simp only [weightedSumLog, totalDurLog, List.map_cons, List.sum_cons] at *
    push_cast
    push_cast at h2
    linarith

lemma weightedSumLog_le (acts : List ActivityLog) (hi : ℤ)
    (h : ∀ a ∈ acts, a.productivity_score.getD 0 ≤ hi) :
    weightedSumLog acts ≤ hi * (totalDurLog acts : ℤ) := by
  induction acts with
  | nil => simp [weightedSumLog, totalDurLog]
  | cons a t ih =>
    have h1 : a.productivity_score.getD 0 * (a.duration_sec : ℤ) ≤
        hi * (a.duration_sec : ℤ) :=
      mul_le_mul_of_nonneg_right (h a (List.mem_cons_self a t))
        (Int.ofNat_nonneg _)
    have h2 := ih (fun b hb => h b (List.mem_cons_of_mem a hb))
    simp only [weightedSumLog, totalDurLog, List.map_cons, List.sum_cons] at *
    push_cast
    push_cast at h2
    linarith

lemma pyRound_div_bounds {w : ℤ} {T : ℕ} {lo hi : ℤ} (hT : 0 < T)
    (h1 : lo * (T : ℤ) ≤ w) (h2 : w ≤ hi * (T : ℤ)) :
    lo ≤ pyRound ((w : ℚ) / (T : ℚ)) ∧ pyRound ((w : ℚ) / (T : ℚ)) ≤ hi := by
  have hTQ : (0 : ℚ) < (T : ℚ) := by exact_mod_cast hT
  have hd1 : (lo : ℚ) ≤ (w : ℚ) / (T : ℚ) := by
    rw [le_div_iff₀ hTQ]
    exact_mod_cast h1
  have hd2 : (w : ℚ) / (T : ℚ) ≤ (hi : ℚ) := by
    rw [div_le_iff₀ hTQ]
    exact_mod_cast h2
  exact ⟨le_pyRound_of_le hd1, pyRound_le_of_le hd2⟩

/-- C3 counterexample: the session-close path does not treat a missing score
as 0.  On a single 60-second member whose `productivity_score` is absent,
`SessionState._end_session`'s score computation fails with a `TypeError`
(modelled by `none`), while the batch path returns a score of 0 for the same
member. -/
theorem end_session_missing_score_counterexample :
    SessionState.endSessionScore [⟨1, none, 0, 60, none, "x"⟩] = none ∧
    calculate_weighted_score [⟨1, 0, 60, none, "x", none⟩] = 0 := by
  constructor
  · rfl
  · show (if totalDur _ = 0 then (0:ℤ) else _) = 0
    rw [if_neg (by decide)]
    have hw : weightedSum [⟨1, 0, 60, none, "x", none⟩] = 0 := by decide
    rw [hw]
    norm_num [pyRound_zero]

/-- C3 (amended): in the batch path (`calculate_weighted_score`) and the
real-time grouper path (`RealTimeSessionGrouper.calculate_session_score`), a
member activity whose `productivity_score` is absent contributes 0 to the
time-weighted score and no error occurs (replacing every missing score by an
explicit 0 leaves the result unchanged); the `SessionState._end_session`
session-close path instead fails with an error whenever any member lacks a
score. -/
theorem missing_score_neutral_amended :
    (∀ s : List ActivityLogStub,
       calculate_weighted_score s = calculate_weighted_score (fillZeroStub s)) ∧
    (∀ acts : List ActivityLog,
       RealTimeSessionGrouper.calculate_session_score acts =
         RealTimeSessionGrouper.calculate_session_score (fillZeroLog acts)) ∧
    (∀ acts : List ActivityLog, (∃ a ∈ acts, a.productivity_score = none) →
       SessionState.endSessionScore acts = none) := by
  have hdurS : ∀ s : List ActivityLogStub,
      totalDur (fillZeroStub s) = totalDur s := by
    intro s
    simp [totalDur, fillZeroStub, List.map_map, Function.comp_def]
  have hsumS : ∀ s : List ActivityLogStub,
      weightedSum (fillZeroStub s) = weightedSum s := by
    intro s
    simp [weightedSum, fillZeroStub, List.map_map, Function.comp_def]
  have hdurL : ∀ acts : List ActivityLog,
      totalDurLog (fillZeroLog acts) = totalDurLog acts := by
    intro acts
    simp [totalDurLog, fillZeroLog, List.map_map, Function.comp_def]
  have hsumL : ∀ acts : List ActivityLog,
      weightedSumLog (fillZeroLog acts) = weightedSumLog acts := by
    intro acts
    simp [weightedSumLog, fillZeroLog, List.map_map, Function.comp_def]
  refine ⟨?_, ?_, ?_⟩
  · intro s
    unfold calculate_weighted_score
    rw [hdurS, hsumS]
  · intro acts
    rw [rt_score_eq, rt_score_eq, hdurL, hsumL]
  · intro acts h
    unfold SessionState.endSessionScore
    rw [sumScoreTimesDur_none h]

/-- C3 witness: the session-close failure applied to a concrete singleton
session whose member is unscored. -/
theorem missing_score_neutral_witness :
    (⟨1, none, 0, 60, none, "x"⟩ : ActivityLog).productivity_score = none ∧
    SessionState.endSessionScore [⟨1, none, 0, 60, none, "x"⟩] = none :=
  ⟨rfl, missing_score_neutral_amended.2.2 [⟨1, none, 0, 60, none, "x"⟩]
    ⟨⟨1, none, 0, 60, none, "x"⟩, List.mem_singleton_self _, rfl⟩⟩

/-- C4 counterexample: not every scoring function of the core returns 0 on
an empty or zero-total-duration activity list.
`session_operations.calculate_session_score` divides by the total duration
with its guards commented out, so it fails (`ZeroDivisionError`, modelled by
`none`) on the empty list and on a zero-duration member list, as does
`SessionState._end_session`'s score computation. -/
theorem ops_score_empty_counterexample :
    SessionOperations.calculate_session_score [] = none ∧
    SessionOperations.calculate_session_score
      [⟨1, none, 0, 0, some 5, "x"⟩] = none ∧
    SessionState.endSessionScore [] = none := by
  refine ⟨rfl, ?_, rfl⟩
  rfl

/-- C4 (amended): the batch scorer `calculate_weighted_score` and the
real-time grouper scorer return 0 on an empty list and on any list of total
duration zero, rather than failing; but
`session_operations.calculate_session_score` and the
`SessionState._end_session` score computation fail with a division fault on
such input. -/
theorem zero_duration_scoring_amended :
    calculate_weighted_score [] = 0 ∧
    RealTimeSessionGrouper.calculate_session_score [] = 0 ∧
    (∀ s : List ActivityLogStub, totalDur s = 0 →
       calculate_weighted_score s = 0) ∧
    (∀ acts : List ActivityLog, totalDurLog acts = 0 →
       RealTimeSessionGrouper.calculate_session_score acts = 0) ∧
    (∀ acts : List ActivityLog, totalDurLog acts = 0 →
       SessionOperations.calculate_session_score acts = none) ∧
    (∀ acts : List ActivityLog, totalDurLog acts = 0 →
       SessionState.endSessionScore acts = none) := by
  refine ⟨rfl, rfl, ?_, ?_, ?_, ?_⟩
  · intro s h
    unfold calculate_weighted_score
    rw [if_pos h]
  · intro acts h
    rw [rt_score_eq, if_pos h]
  · intro acts h
    unfold SessionOperations.calculate_session_score
    cases hm : sumScoreTimesDur acts with
    | none => rfl
    | some w => simp [h]
  · intro acts h
    unfold SessionState.endSessionScore
    cases hm : sumScoreTimesDur acts with
    | none => rfl
    | some w => simp [h]

/-- C4 witness: the zero-total-duration cases applied to a concrete
zero-duration activity. -/
theorem zero_duration_scoring_witness :
    totalDur [(⟨1, 0, 0, some 5, "x", none⟩ : ActivityLogStub)] = 0 ∧
    calculate_weighted_score [⟨1, 0, 0, some 5, "x", none⟩] = 0 ∧
    totalDurLog [(⟨1, none, 0, 0, some 5, "x"⟩ : ActivityLog)] = 0 ∧
    SessionOperations.calculate_session_score
      [⟨1, none, 0, 0, some 5, "x"⟩] = none :=
  ⟨rfl, zero_duration_scoring_amended.2.2.1 _ rfl, rfl,
   zero_duration_scoring_amended.2.2.2.2.1 _ rfl⟩

/-- C9: for every session whose members all carry a productivity score, any
integer bounds `lo ≤ score ≤ hi` on the member scores (in particular the
minimum and maximum member score) bound the rounded time-weighted session
score whenever the total duration is positive — for both the batch scorer
and the real-time grouper scorer; and a session all of whose members lack a
score has weighted score 0 in both. -/
theorem weighted_score_bounds :
    (∀ (s : List ActivityLogStub) (lo hi : ℤ),
       (∀ a ∈ s, a.productivity_score ≠ none) →
       (∀ a ∈ s, lo ≤ a.productivity_score.getD 0) →
       (∀ a ∈ s, a.productivity_score.getD 0 ≤ hi) →
       0 < totalDur s →
       lo ≤ calculate_weighted_score s ∧ calculate_weighted_score s ≤ hi) ∧
    (∀ (acts : List ActivityLog) (lo hi : ℤ),
       (∀ a ∈ acts, a.productivity_score ≠ none) →
       (∀ a ∈ acts, lo ≤ a.productivity_score.getD 0) →
       (∀ a ∈ acts, a.productivity_score.getD 0 ≤ hi) →
       0 < totalDurLog acts →
       lo ≤ RealTimeSessionGrouper.calculate_session_score acts ∧
         RealTimeSessionGrouper.calculate_session_score acts ≤ hi) ∧
    (∀ s : List ActivityLogStub, (∀ a ∈ s, a.productivity_score = none) →
       calculate_weighted_score s = 0) ∧
    (∀ acts : List ActivityLog, (∀ a ∈ acts, a.productivity_score = none) →
       RealTimeSessionGrouper.calculate_session_score acts = 0) := by
  refine ⟨?_, ?_, ?_, ?_⟩
  · intro s lo hi _ hlo hhi hpos
    unfold calculate_weighted_score
    rw [if_neg (Nat.pos_iff_ne_zero.mp hpos)]
    exact pyRound_div_bounds hpos (le_weightedSum s lo hlo)
      (weightedSum_le s hi hhi)
  · intro acts lo hi _ hlo hhi hpos
    rw [rt_score_eq, if_neg (Nat.pos_iff_ne_zero.mp hpos)]
    exact pyRound_div_bounds hpos (le_weightedSumLog acts lo hlo)
      (weightedSumLog_le acts hi hhi)
  · intro s h
    unfold calculate_weighted_score
    split_ifs with ht
    · rfl
    · have hw : weightedSum s = 0 := by
        refine List.sum_eq_zero ?_
        intro x hx
        rcases List.mem_map.mp hx with ⟨a, ha, rfl⟩
        rw [h a ha]
        simp
      rw [hw]
      norm_num [pyRound_zero]
  · intro acts h
    rw [rt_score_eq]
    split_ifs with ht
    · rfl
    · have hw : weightedSumLog acts = 0 := by
        refine List.sum_eq_zero ?_
        intro x hx
        rcases List.mem_map.mp hx with ⟨a, ha, rfl⟩
        rw [h a ha]
        simp
      rw [hw]
      norm_num [pyRound_zero]

/-- C9 witness: the bound applied to a concrete two-member session with
scores 10 and 20 (each member 60 seconds). -/
theorem weighted_score_bounds_witness :
    (0 : ℕ) < totalDur
      [⟨1, 0, 60, some 10, "a", none⟩, ⟨2, 60, 60, some 20, "b", none⟩] ∧
    (10 ≤ calculate_weighted_score
        [⟨1, 0, 60, some 10, "a", none⟩, ⟨2, 60, 60, some 20, "b", none⟩] ∧
      calculate_weighted_score
        [⟨1, 0, 60, some 10, "a", none⟩, ⟨2, 60, 60, some 20, "b", none⟩] ≤
        20) :=
  ⟨by decide,
   weighted_score_bounds.1
     [⟨1, 0, 60, some 10, "a", none⟩, ⟨2, 60, 60, some 20, "b", none⟩]
     10 20 (by decide) (by decide) (by decide) (by decide)⟩

/-- C8: when every activity in the store already has a `session_id` (no
unsessionized activities remain), `find_smart_sessionization_ranges` returns
the empty list of ranges — hence a second run directly after a successful
pass, with no new activities in between, yields `[]`. -/
theorem find_ranges_all_assigned (store : SessionOperations.Store)
    (h : ∀ a ∈ store.activities, a.session_id ≠ none) :
    SessionOperations.find_smart_sessionization_ranges store = [] := by
  have hf : store.activities.filter
      (fun a => decide (a.session_id = none ∧ 0 < a.duration_sec)) = [] := by
    refine List.filter_eq_nil_iff.mpr ?_
    intro a ha
    simp only [decide_eq_true_eq, not_and]
    intro h1
    exact absurd h1 (h a ha)
  simp only [SessionOperations.find_smart_sessionization_ranges, hf]
  rfl

/-- C8 witness: a store whose single activity is already assigned to
session 5 produces no processing ranges. -/
theorem find_ranges_all_assigned_witness :
    (∀ a ∈ ({ activities := [⟨1, some 5, 0, 60, some 1, "x"⟩],
              sessions := [] } : SessionOperations.Store).activities,
      a.session_id ≠ none) ∧
    SessionOperations.find_smart_sessionization_ranges
      { activities := [⟨1, some 5, 0, 60, some 1, "x"⟩], sessions := [] } =
      [] :=
  ⟨by decide, find_ranges_all_assigned _ (by decide)⟩

/-- Twenty one-minute activities, one per minute, each with score +30. -/
def constFeed : List ActivityLog :=
  (List.range 20).map (fun i => ⟨i, none, 60 * i, 60, some 30, "work"⟩)

/-- Twenty one-minute activities with scores alternating +30 and -30. -/
def altFeed : List ActivityLog :=
  (List.range 20).map
    (fun i => ⟨i, none, 60 * i, 60, some (if i % 2 = 0 then 30 else -30), "w"⟩)

section RatKernelEval

attribute [local semireducible] Rat.add Rat.mul Rat.sub Rat.inv

/-- C2 counterexample: starting the real-time state machine from a fresh
state and feeding it 20 consecutive activities each carrying score +30 does
not open a session at the 15th sample — it never opens one at all.  After
every prefix of the feed (in particular after the 15th sample) no session is
open and none has been saved; the work counter peaks at 9 after the 9th
sample, then decays to 0 once the rolling buffer reaches 10 samples and the
dynamic thresholds (both percentiles of an all-30 buffer equal 30) place the
EMA of 30 in the neutral dead band. -/
theorem constant_feed_counterexample :
    ((List.range 21).map (fun n =>
      (SessionState.runFeed (constFeed.take n)).map
        (fun s => (s.saved.length, s.current_session.isSome)))) =
      List.replicate 21 (some (0, false)) ∧
    (SessionState.runFeed (constFeed.take 9)).map
      (fun s => s.work_counter) = some 9 ∧
    (SessionState.runFeed constFeed).map
      (fun s => s.work_counter) = some 0 := by
  refine ⟨by decide, by decide, by decide⟩

/-- C2 (amended): starting from a fresh state, feeding the machine 20
consecutive +30-score activities never opens a session (the static fallback
thresholds only hold while the buffer has fewer than 10 samples, so the work
counter peaks at 9 before decaying in the dynamic neutral dead band), and
feeding activities with scores alternating between +30 and -30 likewise
never opens a session — after every prefix of either feed there is no open session and no
saved one. -/
theorem hysteresis_no_session_amended :
    ((List.range 21).map (fun n =>
      (SessionState.runFeed (constFeed.take n)).map
        (fun s => (s.saved.length, s.current_session.isSome)))) =
      List.replicate 21 (some (0, false)) ∧
    ((List.range 21).map (fun n =>
      (SessionState.runFeed (altFeed.take n)).map
        (fun s => (s.saved.length, s.current_session.isSome)))) =
      List.replicate 21 (some (0, false)) := by
  refine ⟨by decide, by decide⟩

/-- C5 counterexample: a 30-second activity is below the configured
real-time noise threshold of 60 seconds, yet processing it through the
`SessionState` machine (the component owning the smoothed state) changes the
EMA from `none` to 30, pushes 30 into the rolling buffer, and advances the
work counter: `SessionState.add_activity` applies no noise filter. -/
theorem session_state_noise_counterexample :
    ((⟨7, none, 0, 30, some 30, "blip"⟩ : ActivityLog).duration_sec : ℤ) <
      RealTimeSessionGrouper.REALTIME_SESSION_SETTINGS.noise_threshold ∧
    SessionState.initState.ema_score = none ∧
    SessionState.initState.score_buffer = [] ∧
    SessionState.initState.work_counter = 0 ∧
    (SessionState.addActivity SessionState.initState
        ⟨7, none, 0, 30, some 30, "blip"⟩).map
      (fun s => (s.ema_score, s.score_buffer, s.work_counter,
                 s.break_counter)) =
      some (some 30, [30], 1, 0) := by
  refine ⟨by decide, rfl, rfl, rfl, by decide⟩

end RatKernelEval

/-- C5 (amended): the wired real-time entry point
`RealTimeSessionGrouper.on_new_activity` drops every activity whose duration
is below the configured noise threshold before any state update — for every
configuration, classification oracle, wall-clock instant and state, the
state is returned unchanged.  (The `SessionState` machine, which owns the
EMA, rolling buffer and hysteresis counters, performs no such filtering, as
the counterexample shows.) -/
theorem noise_filter_grouper_amended (cfg : RealTimeSessionGrouper.Config)
    (classify : ActivityLog → String) (now : ℤ)
    (st : RealTimeSessionGrouper.State) (a : ActivityLog)
    (h : (a.duration_sec : ℤ) < cfg.noise_threshold) :
    RealTimeSessionGrouper.onNewActivity cfg classify now st a = st := by
  unfold RealTimeSessionGrouper.onNewActivity
  rw [if_pos h]

/-- C5 witness: the grouper leaves a fresh state untouched on a concrete
30-second activity under the deployed configuration. -/
theorem noise_filter_grouper_witness :
    ((30 : ℤ) <
      RealTimeSessionGrouper.REALTIME_SESSION_SETTINGS.noise_threshold) ∧
    RealTimeSessionGrouper.onNewActivity
      RealTimeSessionGrouper.REALTIME_SESSION_SETTINGS (fun _ => "neutral") 0
      RealTimeSessionGrouper.initState ⟨7, none, 0, 30, some 30, "blip"⟩ =
      RealTimeSessionGrouper.initState :=
  ⟨by decide,
   noise_filter_grouper_amended RealTimeSessionGrouper.REALTIME_SESSION_SETTINGS
     (fun _ => "neutral") 0 RealTimeSessionGrouper.initState
     ⟨7, none, 0, 30, some 30, "blip"⟩ (by decide)⟩

/-- C10: when the machine is idle (no open session), an arriving activity is
never added to a saved session (the saved list is unchanged), and it becomes
a member of a session exactly when its own arrival pushes the work counter to
`HARD_WORK_MIN` and triggers an opening — in which case the newly opened
session's member list is exactly the singleton of that triggering activity,
so every activity processed earlier in the idle period stays excluded. -/
theorem idle_activity_membership (st : SessionState.State) (a : ActivityLog)
    (h : st.current_session = none) :
    SessionState.addActivity st a ≠ none ∧
    (SessionState.addActivity st a).map (fun s => s.saved) = some st.saved ∧
    (∀ st', SessionState.addActivity st a = some st' →
      (st'.current_session = none ∧
        st'.work_counter < SessionState.HARD_WORK_MIN) ∨
      (SessionState.HARD_WORK_MIN ≤ st'.work_counter ∧
        st'.current_session =
          some { activities := [a], start_time := a.timestamp_start })) := by
  simp only [SessionState.addActivity, h]
  simp only [SessionState.processMinute]
  have hcs : (SessionState.smoothedState st
      (Option.map (fun z => (z : ℚ)) a.productivity_score)).current_session =
      none := by
    rw [SessionState.smoothedState_current_session]
    exact h
  simp only [hcs]
  by_cases hw : SessionState.HARD_WORK_MIN ≤
      (SessionState.smoothedState st
        (Option.map (fun z => (z : ℚ)) a.productivity_score)).work_counter
  · rw [if_pos hw]
    refine ⟨by simp, ?_, ?_⟩
    · simp [SessionState.startSession, h, SessionState.smoothedState_saved]
    · intro st' hst'
      simp only [Option.some_inj] at hst'
      subst hst'
      refine Or.inr ⟨?_, ?_⟩
      · simpa [SessionState.startSession, h] using hw
      · simp [SessionState.startSession, h]
  · rw [if_neg hw]
    refine ⟨by simp, ?_, ?_⟩
    · simp [SessionState.smoothedState_saved]
    · intro st' hst'
      simp only [Option.some_inj] at hst'
      subst hst'
      exact Or.inl ⟨hcs, lt_of_not_le hw⟩

/-- C10 witness: from an idle state with the work counter at 14, a +30
activity triggers the opening and the saved list is untouched. -/
theorem idle_activity_membership_witness :
    ({ SessionState.initState with
        work_counter := 14 } : SessionState.State).current_session = none ∧
    (SessionState.addActivity
        { SessionState.initState with work_counter := 14 }
        ⟨1, none, 0, 60, some 30, "w"⟩).map (fun s => s.saved) =
      some ({ SessionState.initState with
              work_counter := 14 } : SessionState.State).saved :=
  ⟨rfl,
   (idle_activity_membership
     { SessionState.initState with work_counter := 14 }
     ⟨1, none, 0, 60, some 30, "w"⟩ rfl).2.1⟩

end Guide2
